import Mathlib

/-!
Shallow embedding of `src/utils.py` from the `transit_classification`
repository, together with theorems settling the frozen claims about it.

Modelling conventions:
* NumPy floating-point values are embedded as `Fl`: a finite rational,
  NaN, or a signed infinity.  The claims under verification are structural
  (array lengths, concatenation order, pointwise shape of operations,
  NaN masking), so the rational-valued arithmetic on `Fl` stands in for
  binary64 arithmetic; NaN/infinity propagation follows IEEE-754 up to
  the sign of zero, which `ℚ` does not carry.
* NumPy arrays are embedded as `List` values; vectorised NumPy operations
  become elementwise recursions or `List.zipWith`.
* `scipy.optimize.curve_fit` is an external numerical routine; it is
  embedded as an explicit function parameter `cf : CurveFit` giving the
  fitted slope and intercept for the masked data handed to it.
* `lightkurve` download results are embedded as `Quarter` records holding
  the four arrays the code extracts from each quarter
  (`lc.time.value`, `lc.flux.value`, `lc.flux_err.value`, `lc.quality`).
-/

/-- Embedded binary64 value: finite rational, NaN, or a signed infinity. -/
inductive Fl where
  | val : ℚ → Fl
  | nan : Fl
  | pinf : Fl
  | ninf : Fl
deriving DecidableEq, Repr

namespace Fl

/-- Embeds `np.isnan` on one element. -/
def isnan : Fl → Bool
  | nan => true
  | _ => false

/-- Embeds `np.isfinite` on one element. -/
def isfinite : Fl → Bool
  | val _ => true
  | _ => false

/-- Embeds the float comparison `x > 0` (false on NaN, true on +inf). -/
def gtZero : Fl → Bool
  | val q => decide (0 < q)
  | pinf => true
  | _ => false

/-- IEEE-style addition on embedded floats. -/
def add : Fl → Fl → Fl
  | nan, _ => nan
  | _, nan => nan
  | pinf, ninf => nan
  | ninf, pinf => nan
  | pinf, _ => pinf
  | _, pinf => pinf
  | ninf, _ => ninf
  | _, ninf => ninf
  | val a, val b => val (a + b)

/-- IEEE-style negation on embedded floats. -/
def neg : Fl → Fl
  | val a => val (-a)
  | nan => nan
  | pinf => ninf
  | ninf => pinf

/-- IEEE-style subtraction on embedded floats. -/
def sub (x y : Fl) : Fl := add x (neg y)

/-- IEEE-style multiplication on embedded floats. -/
def mul : Fl → Fl → Fl
  | nan, _ => nan
  | _, nan => nan
  | val a, val b => val (a * b)
  | pinf, val b => if b = 0 then nan else if 0 < b then pinf else ninf
  | val a, pinf => if a = 0 then nan else if 0 < a then pinf else ninf
  | ninf, val b => if b = 0 then nan else if 0 < b then ninf else pinf
  | val a, ninf => if a = 0 then nan else if 0 < a then ninf else pinf
  | pinf, pinf => pinf
  | ninf, ninf => pinf
  | pinf, ninf => ninf
  | ninf, pinf => ninf

/-- IEEE-style division on embedded floats (the sign of zero is not
tracked, so `x / ±inf` is `0` and `±inf / 0` keeps the numerator sign). -/
def div : Fl → Fl → Fl
  | nan, _ => nan
  | _, nan => nan
  | val a, val b =>
      if b = 0 then (if a = 0 then nan else if 0 < a then pinf else ninf)
      else val (a / b)
  | val _, pinf => val 0
  | val _, ninf => val 0
  | pinf, val b => if 0 ≤ b then pinf else ninf
  | ninf, val b => if 0 ≤ b then ninf else pinf
  | pinf, pinf => nan
  | pinf, ninf => nan
  | ninf, pinf => nan
  | ninf, ninf => nan

end Fl

/-- One quarter of lightcurve data, as the four arrays the code reads off
a `lightkurve` quarter at `src/utils.py` lines 50-53. -/
structure Quarter where
  time : List Fl
  flux : List Fl
  flux_err : List Fl
  quality : List ℤ
deriving DecidableEq, Repr

/-- Abstraction of `scipy.optimize.curve_fit(linear_func, xs, ys)`:
given the masked time and flux arrays it returns the fitted slope and
intercept `popt = (a, b)`. -/
abbrev CurveFit := List Fl → List Fl → Fl × Fl

/-- Embeds `linear_func` (`src/utils.py` lines 14-26) evaluated on an
array: `a*x + b` elementwise. -/
def linear_func (x : List Fl) (a b : Fl) : List Fl :=
  x.map (fun t => Fl.add (Fl.mul a t) b)

/-- Embeds `rel_flux_err = flux_err/flux` (`src/utils.py` line 54). -/
def relFluxErr (q : Quarter) : List Fl :=
  List.zipWith Fl.div q.flux_err q.flux

/-- Embeds `time[nan_mask]` with `nan_mask = np.invert(np.isnan(flux))`
(`src/utils.py` lines 55, 58): the time values at indices where the flux
is not NaN. -/
def maskedTimes (q : Quarter) : List Fl :=
  (List.zip q.time q.flux).filterMap
    (fun p => if p.2.isnan then none else some p.1)

/-- Embeds `flux[nan_mask]` (`src/utils.py` lines 55, 58): the non-NaN
flux values. -/
def maskedFlux (q : Quarter) : List Fl :=
  q.flux.filter (fun f => ! f.isnan)

/-- Embeds the per-quarter body of `stitch` (`src/utils.py` lines 57-60):
fit a linear trend to the non-NaN samples, evaluate it over the whole
interval, and divide it out: `norm = flux / linear_trend`. -/
def detrendedFlux (cf : CurveFit) (q : Quarter) : List Fl :=
  let popt := cf (maskedTimes q) (maskedFlux q)
  let linear_trend := linear_func q.time popt.1 popt.2
  List.zipWith Fl.div q.flux linear_trend

/-- Embeds one iteration of the loop in `stitch` (`src/utils.py`
lines 48-65): extend the four accumulator arrays with this quarter's
time, detrended flux, relative flux error and quality values. -/
def stitchStep (cf : CurveFit) (acc : List Fl × List Fl × List Fl × List ℤ)
    (lc : Quarter) : List Fl × List Fl × List Fl × List ℤ :=
  (acc.1 ++ lc.time,
   acc.2.1 ++ detrendedFlux cf lc,
   acc.2.2.1 ++ relFluxErr lc,
   acc.2.2.2 ++ lc.quality)

/-- Embeds `stitch` (`src/utils.py` lines 28-67): fold the per-quarter
step over the collection, starting from four empty arrays. -/
def stitch (cf : CurveFit) (lc_collection : List Quarter) :
    List Fl × List Fl × List Fl × List ℤ :=
  lc_collection.foldl (stitchStep cf) ([], [], [], [])

/-- Per-quarter well-formedness: the four arrays of a quarter have a
common length (NumPy boolean indexing and the row assignments in the
code require this). -/
def quarterWF (q : Quarter) : Prop :=
  q.flux.length = q.time.length ∧ q.flux_err.length = q.time.length ∧
    q.quality.length = q.time.length

instance (q : Quarter) : Decidable (quarterWF q) := by
  unfold quarterWF; infer_instance

/-- The fold in `stitch` from an arbitrary accumulator appends the join
of the per-quarter arrays. -/
theorem stitch_foldl_eq (cf : CurveFit) (qs : List Quarter)
    (t f e : List Fl) (ql : List ℤ) :
    qs.foldl (stitchStep cf) (t, f, e, ql) =
      (t ++ (qs.map Quarter.time).flatten,
       f ++ (qs.map (detrendedFlux cf)).flatten,
       e ++ (qs.map relFluxErr).flatten,
       ql ++ (qs.map Quarter.quality).flatten) := by
  induction qs generalizing t f e ql with
  | nil => simp
  | cons q rest ih =>
      simp [List.foldl_cons, stitchStep, ih, List.append_assoc]

/-- The four components of `stitch` are the joins of the per-quarter
arrays. -/
theorem stitch_eq_join (cf : CurveFit) (qs : List Quarter) :
    stitch cf qs =
      ((qs.map Quarter.time).flatten,
       (qs.map (detrendedFlux cf)).flatten,
       (qs.map relFluxErr).flatten,
       (qs.map Quarter.quality).flatten) := by
  simpa using stitch_foldl_eq cf qs [] [] [] []

/-- Under per-quarter well-formedness the detrended flux of a quarter has
the quarter's length. -/
theorem detrendedFlux_length (cf : CurveFit) (q : Quarter)
    (h : quarterWF q) : (detrendedFlux cf q).length = q.time.length := by
  simp [detrendedFlux, linear_func, h.1]

/-- Under per-quarter well-formedness the relative flux error of a
quarter has the quarter's length. -/
theorem relFluxErr_length (q : Quarter) (h : quarterWF q) :
    (relFluxErr q).length = q.time.length := by
  simp [relFluxErr, h.1, h.2.1]

/-- Claim C4: each of the four arrays returned by `stitch` is the
concatenation of the per-quarter values in collection order, with the
time and quality values passed through unchanged, and (for collections
of well-formed quarters) each has length equal to the sum of the lengths
of the quarters. -/
theorem stitch_concat_lengths (cf : CurveFit) (qs : List Quarter)
    (hwf : ∀ q ∈ qs, quarterWF q) :
    (stitch cf qs).1 = (qs.map Quarter.time).flatten ∧
    (stitch cf qs).2.2.2 = (qs.map Quarter.quality).flatten ∧
    (stitch cf qs).2.1 = (qs.map (detrendedFlux cf)).flatten ∧
    (stitch cf qs).2.2.1 = (qs.map relFluxErr).flatten ∧
    (stitch cf qs).1.length = (qs.map (fun q => q.time.length)).sum ∧
    (stitch cf qs).2.1.length = (qs.map (fun q => q.time.length)).sum ∧
    (stitch cf qs).2.2.1.length = (qs.map (fun q => q.time.length)).sum ∧
    (stitch cf qs).2.2.2.length = (qs.map (fun q => q.time.length)).sum := by
  rw [stitch_eq_join]
  refine ⟨rfl, rfl, rfl, rfl, ?_, ?_, ?_, ?_⟩
  · simp [List.length_flatten, List.map_map, Function.comp_def]
  · simp only [List.length_flatten, List.map_map, Function.comp_def]
    exact congrArg List.sum
      (List.map_congr_left fun q hq => detrendedFlux_length cf q (hwf q hq))
  · simp only [List.length_flatten, List.map_map, Function.comp_def]
    exact congrArg List.sum
      (List.map_congr_left fun q hq => relFluxErr_length q (hwf q hq))
  · simp only [List.length_flatten, List.map_map, Function.comp_def]
    exact congrArg List.sum
      (List.map_congr_left fun q hq => (hwf q hq).2.2)

/-- Concrete fit function used in the evaluation witnesses. -/
def sampleCf : CurveFit := fun _ _ => (Fl.nan, Fl.nan)

/-- Concrete quarter used in the evaluation witnesses: one sample whose
flux is NaN, so every arithmetic branch short-circuits. -/
def sampleQ : Quarter :=
  ⟨[Fl.val 0], [Fl.nan], [Fl.val 1], [1]⟩

/-- Witness for claim C4 at a concrete collection. -/
theorem stitch_concat_lengths_witness :
    (stitch sampleCf [sampleQ]).1.length =
      ([sampleQ].map (fun q => q.time.length)).sum :=
  (stitch_concat_lengths sampleCf [sampleQ] (by decide)).2.2.2.2.1

/-- Modelled from the words of claim C5: per quarter, the raw flux
divided pointwise by the linear trend `a*x + b` fitted to the quarter's
non-NaN flux values against the corresponding time values and then
evaluated at every time point of the quarter. -/
def specQuarterDetrended (cf : CurveFit) (q : Quarter) : List Fl :=
  let fitPairs := (List.zip q.time q.flux).filter (fun p => ! p.2.isnan)
  let popt := cf (fitPairs.map Prod.fst) (fitPairs.map Prod.snd)
  List.zipWith Fl.div q.flux
    (q.time.map (fun t => Fl.add (Fl.mul popt.1 t) popt.2))

/-- Filtering-then-projecting the first components agrees with the
`filterMap` the code-side mask uses. -/
theorem filterMap_fst_eq (l : List (Fl × Fl)) :
    l.filterMap (fun p => if p.2.isnan then none else some p.1) =
      (l.filter (fun p => ! p.2.isnan)).map Prod.fst := by
  induction l with
  | nil => rfl
  | cons a t ih =>
      by_cases h : a.2.isnan <;> simp [List.filter_cons, h, ih]

/-- For equal-length lists, projecting the second components of the
filtered zip is filtering the second list. -/
theorem filter_snd_zip (t f : List Fl) (h : t.length = f.length) :
    ((t.zip f).filter (fun p => ! p.2.isnan)).map Prod.snd =
      f.filter (fun x => ! x.isnan) := by
  induction t generalizing f with
  | nil =>
      cases f with
      | nil => rfl
      | cons b fb => simp at h
  | cons a ta ih =>
      cases f with
      | nil => simp at h
      | cons b fb =>
          simp only [List.length_cons, Nat.succ.injEq] at h
          by_cases hb : b.isnan <;>
            simp [List.zip_cons_cons, List.filter_cons, hb, ih fb h]

/-- The code-side per-quarter detrending agrees with the claim-side
formulation for well-formed quarters. -/
theorem detrendedFlux_eq_spec (cf : CurveFit) (q : Quarter)
    (h : quarterWF q) : detrendedFlux cf q = specQuarterDetrended cf q := by
  simp only [detrendedFlux, specQuarterDetrended, maskedTimes, maskedFlux,
    linear_func]
  rw [filterMap_fst_eq, filter_snd_zip q.time q.flux h.1.symm]

/-- Claim C5: for collections of well-formed quarters, the flux array
returned by `stitch` is, quarter by quarter, the raw flux divided
pointwise by the linear trend fitted to the quarter's non-NaN flux
values against time and evaluated at every time point of the quarter. -/
theorem stitch_flux_detrended_spec (cf : CurveFit) (qs : List Quarter)
    (hwf : ∀ q ∈ qs, quarterWF q) :
    (stitch cf qs).2.1 = (qs.map (specQuarterDetrended cf)).flatten := by
  rw [stitch_eq_join]
  show (qs.map (detrendedFlux cf)).flatten = _
  rw [List.map_congr_left (fun q hq => detrendedFlux_eq_spec cf q (hwf q hq))]

/-- Witness for claim C5 at a concrete collection. -/
theorem stitch_flux_detrended_spec_witness :
    (stitch sampleCf [sampleQ]).2.1 =
      ([sampleQ].map (specQuarterDetrended sampleCf)).flatten :=
  stitch_flux_detrended_spec sampleCf [sampleQ] (by decide)

/-- Claim C10: the flux-error array returned by `stitch` is the
concatenation over quarters of the raw flux error divided pointwise by
the raw flux, and on a sample quarter this differs from the raw
flux-error values themselves. -/
theorem stitch_flux_err_relative :
    (∀ (cf : CurveFit) (qs : List Quarter),
      (stitch cf qs).2.2.1 =
        (qs.map (fun q => List.zipWith Fl.div q.flux_err q.flux)).flatten) ∧
    (stitch sampleCf [sampleQ]).2.2.1 ≠
      ([sampleQ].map Quarter.flux_err).flatten := by
  constructor
  · intro cf qs
    rw [stitch_eq_join]
    rfl
  · decide

/-- Embeds the elementwise good-sample test at `src/utils.py` line 116 /
line 232: `good = (quality == 0) * (flux_err > 0) * np.isfinite(time) *
np.isfinite(flux) * np.isfinite(flux_err)`. -/
def goodSample (t f e : Fl) (q : ℤ) : Bool :=
  (q == 0) && e.gtZero && t.isfinite && f.isfinite && e.isfinite

/-- Embeds `flux[np.invert(good)] = np.NaN` (`src/utils.py` line 117 /
line 233): each flux sample with a failing good-test is replaced by NaN. -/
def maskFlux : List Fl → List Fl → List Fl → List ℤ → List Fl
  | f :: fs, t :: ts, e :: es, q :: qs =>
      (if goodSample t f e q then f else Fl.nan) :: maskFlux fs ts es qs
  | _, _, _, _ => []

/-- Embeds the poor-quality masking step (`src/utils.py` lines 115-117 /
231-233): the flux array is masked, the time array is not modified. -/
def maskPoorQuality (time flux flux_err : List Fl) (quality : List ℤ) :
    List Fl × List Fl :=
  (time, maskFlux flux time flux_err quality)

/-- Modelled from the words of claim C6: a sample is bad when its quality
flag is nonzero, or its flux error is not strictly positive, or its time,
flux, or flux error is not finite. -/
def specBadSample (t f e : Fl) (q : ℤ) : Bool :=
  decide (q ≠ 0) || ! e.gtZero || ! t.isfinite || ! f.isfinite ||
    ! e.isfinite

/-- The claim-side bad-sample test is the negation of the code-side
good-sample test. -/
theorem specBad_eq_not_good (t f e : Fl) (q : ℤ) :
    specBadSample t f e q = ! goodSample t f e q := by
  have hq : (q == 0) = decide (q = 0) := by
    by_cases h : q = 0 <;> simp [h]
  simp [specBadSample, goodSample, decide_not, hq]

/-- Masking preserves the length of the flux array. -/
theorem maskFlux_length : ∀ (f t e : List Fl) (q : List ℤ),
    t.length = f.length → e.length = f.length → q.length = f.length →
    (maskFlux f t e q).length = f.length
  | [], _, _, _, _, _, _ => by simp [maskFlux]
  | fh :: ft, t, e, q, h1, h2, h3 => by
      cases t with
      | nil => simp at h1
      | cons th tt =>
          cases e with
          | nil => simp at h2
          | cons eh et =>
              cases q with
              | nil => simp at h3
              | cons qh qt =>
                  simp only [List.length_cons, Nat.succ.injEq] at h1 h2 h3
                  simp [maskFlux, maskFlux_length ft tt et qt h1 h2 h3]

/-- Pointwise description of the mask. -/
theorem maskFlux_getD : ∀ (f t e : List Fl) (q : List ℤ) (i : ℕ),
    t.length = f.length → e.length = f.length → q.length = f.length →
    i < f.length →
    (maskFlux f t e q).getD i Fl.nan =
      if goodSample (t.getD i Fl.nan) (f.getD i Fl.nan) (e.getD i Fl.nan)
          (q.getD i 0)
      then f.getD i Fl.nan else Fl.nan
  | [], _, _, _, i, _, _, _, hi => by simp at hi
  | fh :: ft, t, e, q, i, h1, h2, h3, hi => by
      cases t with
      | nil => simp at h1
      | cons th tt =>
          cases e with
          | nil => simp at h2
          | cons eh et =>
              cases q with
              | nil => simp at h3
              | cons qh qt =>
                  simp only [List.length_cons, Nat.succ.injEq] at h1 h2 h3
                  cases i with
                  | zero => simp [maskFlux]
                  | succ j =>
                      simp only [maskFlux, List.getD_cons_succ]
                      exact maskFlux_getD ft tt et qt j h1 h2 h3
                        (by simpa using hi)

/-- Claim C6: before resampling, exactly those flux samples whose quality
flag is nonzero, or whose flux error is not strictly positive, or whose
time, flux, or flux error is not finite, are replaced by NaN; all other
flux samples and all time samples are left unchanged. -/
theorem mask_poor_quality_spec (time flux flux_err : List Fl)
    (quality : List ℤ)
    (h1 : time.length = flux.length) (h2 : flux_err.length = flux.length)
    (h3 : quality.length = flux.length) :
    (maskPoorQuality time flux flux_err quality).1 = time ∧
    (maskPoorQuality time flux flux_err quality).2.length = flux.length ∧
    ∀ i, i < flux.length →
      (maskPoorQuality time flux flux_err quality).2.getD i Fl.nan =
        if specBadSample (time.getD i Fl.nan) (flux.getD i Fl.nan)
            (flux_err.getD i Fl.nan) (quality.getD i 0)
        then Fl.nan else flux.getD i Fl.nan := by
  refine ⟨rfl, maskFlux_length flux time flux_err quality h1 h2 h3,
    fun i hi => ?_⟩
  rw [show (maskPoorQuality time flux flux_err quality).2 =
        maskFlux flux time flux_err quality from rfl,
    maskFlux_getD flux time flux_err quality i h1 h2 h3 hi,
    specBad_eq_not_good]
  cases goodSample (time.getD i Fl.nan) (flux.getD i Fl.nan)
      (flux_err.getD i Fl.nan) (quality.getD i 0) <;> simp

/-- Witness for claim C6 at concrete arrays: a sample with nonzero
quality flag is replaced by NaN, a good sample is kept. -/
theorem mask_poor_quality_spec_witness :
    (maskPoorQuality [Fl.val 0] [Fl.nan] [Fl.val 1] [1]).2.getD 0 Fl.nan =
      if specBadSample ([Fl.val 0].getD 0 Fl.nan)
          ([Fl.nan].getD 0 Fl.nan) ([Fl.val 1].getD 0 Fl.nan)
          ([(1 : ℤ)].getD 0 0)
      then Fl.nan else [Fl.nan].getD 0 Fl.nan :=
  (mask_poor_quality_spec [Fl.val 0] [Fl.nan] [Fl.val 1] [1]
    rfl rfl rfl).2.2 0 (by decide)

/-- Embedded Python exception values relevant to the claims. -/
inductive PyErr where
  | nameError (nm : String)
  | exception (paths : List String)
  | valueError (msg : String)
deriving DecidableEq, Repr

/-- Embeds `np.linspace(a, b, m)`: `m` evenly spaced values from `a` to
`b` inclusive (`[a]` when `m = 1`, empty when `m = 0`). -/
def linspace (a b : ℚ) (m : ℕ) : List ℚ :=
  if m = 0 then []
  else if m = 1 then [a]
  else (List.range m).map (fun i : ℕ => a + (b - a) * (i : ℚ) / ((m : ℚ) - 1))

/-- Piecewise-linear lookup between successive sample points, used by the
embedding of `np.interp` for query points at or beyond the first point. -/
def interpSeg (x : ℚ) : ℚ × Fl → List (ℚ × Fl) → Fl
  | (_, fl), [] => fl
  | (xl, fl), (xr, fr) :: rest =>
      if x ≤ xr then
        if xl = xr then fl
        else Fl.add fl (Fl.mul (Fl.val ((x - xl) / (xr - xl)))
          (Fl.sub fr fl))
      else interpSeg x (xr, fr) rest

/-- One interpolated value of `np.interp`: clamps to the first value
below the grid, otherwise walks the segments. -/
def interpAt (pts : List (ℚ × Fl)) (x : ℚ) : Fl :=
  match pts with
  | [] => Fl.nan
  | p :: rest => if x < p.1 then p.2 else interpSeg x p rest

/-- Embeds `np.interp(xnew, xp, fp)`: raises `ValueError` on an empty
sample grid, otherwise returns one interpolated value per query point. -/
def npInterp (xnew xp : List ℚ) (fp : List Fl) :
    Except PyErr (List Fl) :=
  if xp.isEmpty then
    Except.error (PyErr.valueError ("array of sample points is empty"))
  else Except.ok (xnew.map (interpAt (xp.zip fp)))

/-- Embeds the downsize step (`src/utils.py` lines 118-124 / 234-240):
with `downsize_method = 'interpolate'`, flux and time are interpolated
from a grid of their own length onto the `n_timesteps`-point grid
`np.linspace(0, n_timesteps-1, n_timesteps)`; with `'truncate'` they are
sliced to the first `n_timesteps` entries; any other method leaves them
unchanged. -/
def downsize (downsize_method : String) (n_timesteps : ℕ)
    (flux time : List Fl) : Except PyErr (List Fl × List Fl) := do
  let (flux, time) ←
    if downsize_method = "interpolate" then do
      let fx ← npInterp (linspace 0 ((n_timesteps : ℚ) - 1) n_timesteps)
        (linspace 0 ((n_timesteps : ℚ) - 1) flux.length) flux
      let tm ← npInterp (linspace 0 ((n_timesteps : ℚ) - 1) n_timesteps)
        (linspace 0 ((n_timesteps : ℚ) - 1) time.length) time
      pure (fx, tm)
    else pure (flux, time)
  if downsize_method = "truncate" then
    pure (flux.take n_timesteps, time.take n_timesteps)
  else
    pure (flux, time)

/-- The embedded linspace has the requested number of points. -/
theorem linspace_length (a b : ℚ) (m : ℕ) : (linspace a b m).length = m := by
  unfold linspace
  by_cases h0 : m = 0
  · simp [h0]
  · by_cases h1 : m = 1
    · simp [h0, h1]
    · rw [if_neg h0, if_neg h1, List.length_map, List.length_range]

/-- A list of positive length is not empty. -/
theorem isEmpty_false_of_length_pos {α : Type} (l : List α)
    (h : 0 < l.length) : l.isEmpty = false := by
  cases l with
  | nil => simp at h
  | cons a t => rfl

/-- Counterexample to claim C2 as stated: with `downsize_method =
'truncate'` and a downloaded curve of 2 samples, the produced flux and
time rows have 2 values, not `n_timesteps = 3`. -/
theorem truncate_row_shorter_than_n_timesteps :
    downsize ("truncate") 3 [Fl.val 0, Fl.val 1] [Fl.val 2, Fl.val 3] =
      Except.ok ([Fl.val 0, Fl.val 1], [Fl.val 2, Fl.val 3]) ∧
    ([Fl.val 0, Fl.val 1] : List Fl).length ≠ 3 := by
  exact ⟨rfl, by decide⟩

/-- Claim C2 as amended: for nonempty curves, `'interpolate'` always
produces flux and time rows of exactly `n_timesteps` values, while
`'truncate'` produces rows of `min n_timesteps (curve length)` values —
exactly `n_timesteps` only when the downloaded curve has at least
`n_timesteps` samples. -/
theorem downsize_row_lengths (n : ℕ) (flux time : List Fl)
    (hf : flux ≠ []) (ht : time ≠ []) :
    (∃ fx tm, downsize ("interpolate") n flux time = Except.ok (fx, tm) ∧
      fx.length = n ∧ tm.length = n) ∧
    (∃ fx tm, downsize ("truncate") n flux time = Except.ok (fx, tm) ∧
      fx.length = min n flux.length ∧ tm.length = min n time.length) := by
  constructor
  · refine ⟨(linspace 0 ((n : ℚ) - 1) n).map
        (interpAt ((linspace 0 ((n : ℚ) - 1) flux.length).zip flux)),
      (linspace 0 ((n : ℚ) - 1) n).map
        (interpAt ((linspace 0 ((n : ℚ) - 1) time.length).zip time)),
      ?_, by simp [linspace_length], by simp [linspace_length]⟩
    have hfe : (linspace 0 ((n : ℚ) - 1) flux.length).isEmpty = false :=
      isEmpty_false_of_length_pos (linspace 0 ((n : ℚ) - 1) flux.length)
        (by rw [linspace_length]; exact List.length_pos.mpr hf)
    have hte : (linspace 0 ((n : ℚ) - 1) time.length).isEmpty = false :=
      isEmpty_false_of_length_pos (linspace 0 ((n : ℚ) - 1) time.length)
        (by rw [linspace_length]; exact List.length_pos.mpr ht)
    simp [downsize, npInterp, hfe, hte]
    rfl
  · exact ⟨flux.take n, time.take n, rfl, by simp, by simp⟩

/-- Witness for the amended claim C2 at a concrete curve. -/
theorem downsize_row_lengths_witness :
    (∃ fx tm, downsize ("interpolate") 3 [Fl.nan] [Fl.val 2] =
        Except.ok (fx, tm) ∧ fx.length = 3 ∧ tm.length = 3) ∧
    (∃ fx tm, downsize ("truncate") 3 [Fl.nan] [Fl.val 2] =
        Except.ok (fx, tm) ∧
      fx.length = min 3 ([Fl.nan] : List Fl).length ∧
      tm.length = min 3 ([Fl.val 2] : List Fl).length) :=
  downsize_row_lengths 3 [Fl.nan] [Fl.val 2] (by decide) (by decide)

/-- Embedded Python values, as far as the label expressions need them:
integer array elements versus the builtin function object `id`. -/
inductive PyVal where
  | int : ℤ → PyVal
  | builtinFun : String → PyVal
deriving DecidableEq, Repr

/-- Embeds the label expression of `collect_curves` (`src/utils.py` line
126): `int(1) if id in transit_ids else int(0)`.  The name `id` there
denotes the Python builtin function — the loop variable is `star` — so
the membership test compares that function object against the sampled
integer ids. -/
def collect_curves_label (transit_ids : List ℤ) : ℤ :=
  if PyVal.builtinFun ("id") ∈ transit_ids.map PyVal.int then 1 else 0

/-- Embeds the label expression of `collect_curves_tofiles`
(`src/utils.py` line 200): `1 if (star in transit_ids) else 0`. -/
def collect_curves_tofiles_label (star : ℤ) (transit_ids : List ℤ) : ℤ :=
  if star ∈ transit_ids then 1 else 0

/-- Claim C1 fails on the code: in `collect_curves` the stored label is 0
for every star — also for stars drawn from the CONFIRMED id set — because
the builtin function `id` is never equal to an integer id, whereas
`collect_curves_tofiles` does store 1 for a star from the CONFIRMED id
set (evaluated here at star 7 with sampled transit ids `[7]`). -/
theorem collect_curves_label_always_zero :
    (∀ transit_ids : List ℤ, collect_curves_label transit_ids = 0) ∧
    collect_curves_tofiles_label 7 [7] = 1 := by
  constructor
  · intro tids
    have hni : PyVal.builtinFun ("id") ∉ tids.map PyVal.int := by
      intro h
      rcases List.mem_map.mp h with ⟨k, _, hk⟩
      exact PyVal.noConfusion hk
    simp [collect_curves_label, hni]
  · rfl

/-- The global names defined or imported by `src/utils.py`: the six
imports (lines 7-12, with their `as` aliases) and the four module-level
function definitions.  None of the undefined names below is a Python
builtin either, so resolution against this list decides them. -/
def utilsModuleGlobals : List String :=
  ["np", "pd", "lk", "curve_fit", "csv", "os",
   "linear_func", "stitch", "collect_curves", "collect_curves_tofiles"]

/-- Python name resolution against the module globals: a name that is
neither defined nor imported raises a `NameError` when evaluated. -/
def requireGlobal (nm : String) : Except PyErr Unit :=
  if nm ∈ utilsModuleGlobals then Except.ok ()
  else Except.error (PyErr.nameError nm)

/-- Embeds the per-star body of the download loop of
`collect_curves_tofiles` (`src/utils.py` lines 197-244): the label (line
200), the download (line 203, abstracted as the parameter `download`),
the `stitch_quarters(curve)` call (line 205) behind name resolution —
the module defines `stitch` but never `stitch_quarters` — the optional
smoothing `flux/medfilt(flux,51)` (lines 206-208) and the phase-fold
branch using `binned_statistic` (lines 209-230), whose names are behind
resolution as well and whose external numerics are abstracted as the
parameters `medfiltImpl` and `foldImpl`, then the quality mask and the
downsize step, returning the flux row, time row and label written to the
three csv files.  `sqImpl` stands for whatever the name
`stitch_quarters` would denote if it resolved. -/
def processStar_tofiles (transit_ids : List ℤ)
    (download : ℤ → List Quarter)
    (sqImpl : List Quarter → List Fl × List Fl × List Fl × List ℤ)
    (medfiltImpl : List Fl → ℕ → List Fl)
    (foldImpl : List Quarter → ℕ → List Fl × List Fl)
    (n_timesteps : ℕ) (downsize_method : String)
    (smooth phase_fold : Bool) (star : ℤ) :
    Except PyErr (List Fl × List Fl × ℤ) := do
  let label : ℤ := collect_curves_tofiles_label star transit_ids
  let curve := download star
  let _ ← requireGlobal ("stitch_quarters")
  let (time, flux, flux_err, quality) := sqImpl curve
  let flux ← if smooth then do
      let _ ← requireGlobal ("medfilt")
      pure (List.zipWith Fl.div flux (medfiltImpl flux 51))
    else pure flux
  if phase_fold then do
    let _ ← requireGlobal ("binned_statistic")
    let (folded_smoothed_flux, folded_smoothed_time) :=
      foldImpl curve n_timesteps
    pure (folded_smoothed_flux, folded_smoothed_time, label)
  else do
    let (time, flux) := maskPoorQuality time flux flux_err quality
    let (flux, time) ← downsize downsize_method n_timesteps flux time
    pure (flux, time, label)

/-- On-disk contents of the three csv files after the `with` block has
closed (and thereby flushed) the handles: the flux rows, time rows and
label rows. -/
structure CsvFiles where
  flux_rows : List (List Fl)
  time_rows : List (List Fl)
  label_rows : List (List ℤ)
deriving DecidableEq, Repr

/-- One star's writes (`src/utils.py` lines 242-244): one row appended to
each of the three files. -/
def appendRow (fs : CsvFiles) (r : List Fl × List Fl × ℤ) : CsvFiles :=
  ⟨fs.flux_rows ++ [r.1], fs.time_rows ++ [r.2.1],
    fs.label_rows ++ [[r.2.2]]⟩

/-- The download-and-append loop (`src/utils.py` lines 195-245) over an
abstract per-star computation: each successful star appends its three
rows; the first per-star error stops the loop and propagates after the
`with` block closes the files, leaving the appended rows on disk. -/
def tofiles_loop (step : ℤ → Except PyErr (List Fl × List Fl × ℤ)) :
    List ℤ → CsvFiles → CsvFiles × Option PyErr
  | [], fs => (fs, none)
  | star :: rest, fs =>
      match step star with
      | Except.error e => (fs, some e)
      | Except.ok r => tofiles_loop step rest (appendRow fs r)

/-- Claim C3: `stitch_quarters`, `medfilt` and `binned_statistic` are not
among the module globals of `src/utils.py`; every per-star computation of
`collect_curves_tofiles` raises `NameError('stitch_quarters')` whatever
the flags; hence a call that reaches the download loop fails at its
first star with the three files unchanged — no curve rows are ever
appended by this function. -/
theorem collect_curves_tofiles_raises_nameError (transit_ids : List ℤ)
    (download : ℤ → List Quarter)
    (sqImpl : List Quarter → List Fl × List Fl × List Fl × List ℤ)
    (medfiltImpl : List Fl → ℕ → List Fl)
    (foldImpl : List Quarter → ℕ → List Fl × List Fl)
    (n_timesteps : ℕ) (downsize_method : String)
    (smooth phase_fold : Bool) (star : ℤ) (rest : List ℤ)
    (init : CsvFiles) :
    (("stitch_quarters") ∉ utilsModuleGlobals ∧
      ("medfilt") ∉ utilsModuleGlobals ∧
      ("binned_statistic") ∉ utilsModuleGlobals) ∧
    processStar_tofiles transit_ids download sqImpl medfiltImpl foldImpl
        n_timesteps downsize_method smooth phase_fold star =
      Except.error (PyErr.nameError ("stitch_quarters")) ∧
    tofiles_loop
        (processStar_tofiles transit_ids download sqImpl medfiltImpl
          foldImpl n_timesteps downsize_method smooth phase_fold)
        (star :: rest) init =
      (init, some (PyErr.nameError ("stitch_quarters"))) :=
  ⟨by decide, rfl, rfl⟩

/-- Claim C9: if the per-star computation succeeds on the first `k` stars
and raises on star `k`, the loop exits with that error and the files hold
the initial rows followed by exactly one flux row, one time row and one
label row per successfully processed star, in processing order. -/
theorem tofiles_persists_rows_on_error
    (step : ℤ → Except PyErr (List Fl × List Fl × ℤ))
    (stars : List ℤ) (init : CsvFiles) (k : ℕ) (e : PyErr)
    (r : ℕ → List Fl × List Fl × ℤ)
    (hk : k < stars.length)
    (hok : ∀ i, i < k → step (stars.getD i 0) = Except.ok (r i))
    (herr : step (stars.getD k 0) = Except.error e) :
    tofiles_loop step stars init =
      (⟨init.flux_rows ++ (List.range k).map (fun i => (r i).1),
        init.time_rows ++ (List.range k).map (fun i => (r i).2.1),
        init.label_rows ++ (List.range k).map (fun i => [(r i).2.2])⟩,
       some e) := by
  induction k generalizing stars init r with
  | zero =>
      cases stars with
      | nil => simp at hk
      | cons s rest =>
          simp only [List.getD_cons_zero] at herr
          simp [tofiles_loop, herr]
  | succ k ih =>
      cases stars with
      | nil => simp at hk
      | cons s rest =>
          have h0 : step s = Except.ok (r 0) := by
            simpa using hok 0 (Nat.succ_pos k)
          have hrec := ih rest (appendRow init (r 0)) (fun i => r (i + 1))
            (by simpa using hk)
            (fun i hi => by simpa using hok (i + 1) (by omega))
            (by simpa using herr)
          simp only [tofiles_loop, h0]
          rw [hrec]
          simp [appendRow, List.range_succ_eq_map, List.map_map,
            Function.comp_def, List.append_assoc]

/-- Witness for claim C9: a concrete step that succeeds on star 5 and
raises on star 0, over the star list `[5, 0]`. -/
def witnessStep (star : ℤ) : Except PyErr (List Fl × List Fl × ℤ) :=
  if star = 0 then Except.error (PyErr.valueError ("download failed"))
  else Except.ok ([Fl.nan], [Fl.nan], 1)

/-- Witness for claim C9 at the concrete step and star list. -/
theorem tofiles_persists_rows_on_error_witness :
    tofiles_loop witnessStep [5, 0] ⟨[], [], []⟩ =
      (⟨[] ++ (List.range 1).map (fun _ => [Fl.nan]),
        [] ++ (List.range 1).map (fun _ => [Fl.nan]),
        [] ++ (List.range 1).map (fun _ => [(1 : ℤ)])⟩,
       some (PyErr.valueError ("download failed"))) :=
  tofiles_persists_rows_on_error witnessStep [5, 0] ⟨[], [], []⟩ 1
    (PyErr.valueError ("download failed")) (fun _ => ([Fl.nan], [Fl.nan], 1))
    (by decide) (fun i hi => by interval_cases i; rfl) rfl

/-- Embeds `int(n_curves*(1-pct_transit/100))` (`src/utils.py` line 91 /
line 163), the number of FALSE POSITIVE ids sampled.  Python `int()`
truncates toward zero; for the nonnegative values arising from
`0 ≤ pct_transit ≤ 100` that is the floor taken here. -/
def nontransitSize (n_curves : ℕ) (pct_transit : ℚ) : ℕ :=
  (((n_curves : ℚ) * (1 - pct_transit / 100)).floor).toNat

/-- Embeds `int(n_curves*(pct_transit/100))` (`src/utils.py` line 96 /
line 168), the number of CONFIRMED ids sampled. -/
def transitSize (n_curves : ℕ) (pct_transit : ℚ) : ℕ :=
  (((n_curves : ℚ) * (pct_transit / 100)).floor).toNat

/-- Embeds the id-sampling preamble shared by `collect_curves` and
`collect_curves_tofiles` (`src/utils.py` lines 88-100 / 160-172).
`choose pool k` abstracts `np.random.choice(pool, size=k)`; `permIdx`
abstracts the index array `np.random.permutation(len(all_ids))`; the
result is the shuffled processing list `all_ids[permutation]` together
with the two sampled id arrays. -/
def sample_ids (choose : List ℤ → ℕ → List ℤ) (permIdx : List ℕ)
    (nontransit_pool transit_pool : List ℤ) (n_curves : ℕ)
    (pct_transit : ℚ) : List ℤ × List ℤ × List ℤ :=
  let nontransit_ids :=
    choose nontransit_pool (nontransitSize n_curves pct_transit)
  let transit_ids := choose transit_pool (transitSize n_curves pct_transit)
  let all_ids := nontransit_ids ++ transit_ids
  (permIdx.map (fun i => all_ids.getD i 0), nontransit_ids, transit_ids)

/-- Indexing a list by the full index range reproduces the list. -/
theorem map_getD_range {α : Type} (d : α) (l : List α) :
    (List.range l.length).map (fun i => l.getD i d) = l := by
  induction l with
  | nil => rfl
  | cons a t ih =>
      rw [List.length_cons, List.range_succ_eq_map, List.map_cons,
        List.map_map]
      simp only [List.getD_cons_zero, Function.comp_def,
        List.getD_cons_succ]
      rw [ih]

/-- Claim C7: the processed id list consists of exactly
`int(n_curves*(1-pct_transit/100))` ids sampled from the FALSE POSITIVE
pool and `int(n_curves*(pct_transit/100))` ids sampled from the
CONFIRMED pool, and its processing order is the chosen permutation of
the combined list. -/
theorem sampled_ids_composition (choose : List ℤ → ℕ → List ℤ)
    (permIdx : List ℕ) (nontransit_pool transit_pool : List ℤ)
    (n_curves : ℕ) (pct_transit : ℚ)
    (hlen_nt : (choose nontransit_pool
      (nontransitSize n_curves pct_transit)).length =
      nontransitSize n_curves pct_transit)
    (hlen_t : (choose transit_pool
      (transitSize n_curves pct_transit)).length =
      transitSize n_curves pct_transit)
    (hmem_nt : ∀ x ∈ choose nontransit_pool
      (nontransitSize n_curves pct_transit), x ∈ nontransit_pool)
    (hmem_t : ∀ x ∈ choose transit_pool
      (transitSize n_curves pct_transit), x ∈ transit_pool)
    (hperm : permIdx.Perm (List.range
      (nontransitSize n_curves pct_transit +
        transitSize n_curves pct_transit))) :
    (sample_ids choose permIdx nontransit_pool transit_pool n_curves
      pct_transit).2.1.length = nontransitSize n_curves pct_transit ∧
    (sample_ids choose permIdx nontransit_pool transit_pool n_curves
      pct_transit).2.2.length = transitSize n_curves pct_transit ∧
    (∀ x ∈ (sample_ids choose permIdx nontransit_pool transit_pool
      n_curves pct_transit).2.1, x ∈ nontransit_pool) ∧
    (∀ x ∈ (sample_ids choose permIdx nontransit_pool transit_pool
      n_curves pct_transit).2.2, x ∈ transit_pool) ∧
    (sample_ids choose permIdx nontransit_pool transit_pool n_curves
      pct_transit).1.Perm
      ((sample_ids choose permIdx nontransit_pool transit_pool n_curves
        pct_transit).2.1 ++
       (sample_ids choose permIdx nontransit_pool transit_pool n_curves
        pct_transit).2.2) := by
  refine ⟨hlen_nt, hlen_t, hmem_nt, hmem_t, ?_⟩
  have hlen : (choose nontransit_pool
      (nontransitSize n_curves pct_transit) ++
      choose transit_pool (transitSize n_curves pct_transit)).length =
      nontransitSize n_curves pct_transit +
        transitSize n_curves pct_transit := by
    rw [List.length_append, hlen_nt, hlen_t]
  have hmap := hperm.map (fun i =>
    (choose nontransit_pool (nontransitSize n_curves pct_transit) ++
      choose transit_pool (transitSize n_curves pct_transit)).getD i 0)
  rw [← hlen, map_getD_range] at hmap
  exact hmap

/-- Concrete sampler for the claim C7 witness: `k` copies of the pool's
first element. -/
def witnessChoose : List ℤ → ℕ → List ℤ :=
  fun pool k => List.replicate k (pool.headD 0)

/-- Witness for claim C7: at pools `[5]` and `[9]`, two curves, fifty
percent transits and the identity permutation, the processed list is a
permutation of the combined sampled list. -/
theorem sampled_ids_composition_witness :
    (sample_ids witnessChoose
      (List.range (nontransitSize 2 50 + transitSize 2 50)) [5] [9] 2
      50).1.Perm
      ((sample_ids witnessChoose
        (List.range (nontransitSize 2 50 + transitSize 2 50)) [5] [9] 2
        50).2.1 ++
       (sample_ids witnessChoose
        (List.range (nontransitSize 2 50 + transitSize 2 50)) [5] [9] 2
        50).2.2) :=
  (sampled_ids_composition witnessChoose
    (List.range (nontransitSize 2 50 + transitSize 2 50)) [5] [9] 2 50
    (by simp [witnessChoose]) (by simp [witnessChoose])
    (by intro x hx
        rw [List.eq_of_mem_replicate hx]
        simp)
    (by intro x hx
        rw [List.eq_of_mem_replicate hx]
        simp)
    (List.Perm.refl _)).2.2.2.2

/-- The recorded length of one output file in the creation loop of
`collect_curves_tofiles` (`src/utils.py` lines 177-186): for a missing
file, the file is created and the Python list `[0]` is recorded; for an
existing file, the integer `len(pd.read_csv(filepath, header=None,
delimiter=','))` is recorded (abstracted here as the given row count). -/
inductive FileLen where
  | listZero
  | count (n : ℕ)
deriving DecidableEq, Repr

/-- The recorded length for one file given its existence and row count. -/
def fileCheckLen (exist : Bool) (nrows : ℕ) : FileLen :=
  if exist then FileLen.count nrows else FileLen.listZero

/-- Embeds the file creation and length check (`src/utils.py` lines
174-188): after the loop all three files exist (missing ones were opened
with mode `w`); execution proceeds past the check only when
`all(element == filelengths[0] for element in filelengths)`, and
otherwise an `Exception` naming the three file paths is raised.  In
Python the list `[0]` recorded for a fresh file never compares equal to
an integer row count. -/
def ensure_output_files (e1 e2 e3 : Bool) (c1 c2 c3 : ℕ)
    (p1 p2 p3 : String) : (Bool × Bool × Bool) × Except PyErr Unit :=
  let l1 := fileCheckLen e1 c1
  let l2 := fileCheckLen e2 c2
  let l3 := fileCheckLen e3 c3
  let chk : Except PyErr Unit :=
    if ([l1, l2, l3].all (fun l => l == l1)) = false then
      Except.error (PyErr.exception [p1, p2, p3])
    else Except.ok ()
  ((true, true, true), chk)

/-- Claim C8: the check creates all three files; it proceeds when none of
the files existed, and when all three existed with equal recorded row
counts; it raises an Exception naming the three files when all three
existed with differing counts, and always when some but not all of them
existed — a fresh file's recorded `[0]` never equals an integer count. -/
theorem output_file_check_cases (e1 e2 e3 : Bool) (c1 c2 c3 : ℕ)
    (p1 p2 p3 : String) :
    (ensure_output_files e1 e2 e3 c1 c2 c3 p1 p2 p3).1 =
      (true, true, true) ∧
    (e1 = false → e2 = false → e3 = false →
      (ensure_output_files e1 e2 e3 c1 c2 c3 p1 p2 p3).2 =
        Except.ok ()) ∧
    (e1 = true → e2 = true → e3 = true → c1 = c2 → c1 = c3 →
      (ensure_output_files e1 e2 e3 c1 c2 c3 p1 p2 p3).2 =
        Except.ok ()) ∧
    (e1 = true → e2 = true → e3 = true → (c1 ≠ c2 ∨ c1 ≠ c3) →
      (ensure_output_files e1 e2 e3 c1 c2 c3 p1 p2 p3).2 =
        Except.error (PyErr.exception [p1, p2, p3])) ∧
    ((e1 = true ∨ e2 = true ∨ e3 = true) →
      ¬(e1 = true ∧ e2 = true ∧ e3 = true) →
      (ensure_output_files e1 e2 e3 c1 c2 c3 p1 p2 p3).2 =
        Except.error (PyErr.exception [p1, p2, p3])) := by
  refine ⟨rfl, ?_, ?_, ?_, ?_⟩
  · rintro rfl rfl rfl
    rfl
  · rintro rfl rfl rfl rfl rfl
    simp [ensure_output_files, fileCheckLen]
  · rintro rfl rfl rfl hne
    have hns : ¬((c2 == c1) && (c3 == c1)) = true := by
      rw [Bool.and_eq_true, beq_iff_eq, beq_iff_eq]
      rintro ⟨h2, h3⟩
      rcases hne with h | h
      · exact h h2.symm
      · exact h h3.symm
    simp only [ensure_output_files, fileCheckLen, if_true, List.all_cons,
      List.all_nil, Bool.and_true]
    rw [if_pos]
    rw [Bool.eq_false_iff]
    intro hb
    apply hns
    have h1 : (FileLen.count c2 == FileLen.count c1) = (c2 == c1) := by
      by_cases h : c2 = c1 <;> simp [h]
    have h2 : (FileLen.count c3 == FileLen.count c1) = (c3 == c1) := by
      by_cases h : c3 = c1 <;> simp [h]
    have hself : (FileLen.count c1 == FileLen.count c1) = true := by simp
    rw [hself, h1, h2, Bool.true_and] at hb
    exact hb
  · rintro hsome hnall
    simp only [ensure_output_files, fileCheckLen, List.all_cons,
      List.all_nil, Bool.and_true]
    cases e1 <;> cases e2 <;> cases e3 <;> simp at hsome hnall ⊢

/-- Witness for claim C8: with only the flux file existing (5 rows), the
check raises the Exception naming the three files. -/
theorem output_file_check_cases_witness :
    (ensure_output_files true false false 5 0 0 ("p") ("q") ("r")).2 =
      Except.error (PyErr.exception [("p"), ("q"), ("r")]) :=
  (output_file_check_cases true false false 5 0 0 ("p") ("q")
    ("r")).2.2.2.2 (Or.inl rfl) (by simp)
